import Mathlib

/-!
Shallow embedding of the Tact haptic host software (tact_host_simulator.py and
system_validation.py) and proofs about the claims of its specification.

Conventions of the embedding:
* Python floats are idealised as exact rationals (ℚ); the gesture and codec
  arithmetic uses only +, -, *, / and the claims at issue do not depend on
  binary rounding.
* `math.sin` is kept abstract as a parameter `sinq : ℚ → ℚ`: every claim that
  touches the stroke gesture is independent of the values of the sine.
* The serial transport is modelled by a fault schedule `fail : Nat → Bool`:
  the n-th write attempt (0-based, counted in `attempted`) raises iff
  `fail n = true`.  A successful write appends the line to `writes`.
* `time.time()` is modelled by an oracle `now : Nat → ℚ` indexed by the number
  of clock reads made so far.
-/

/-- A touch event as produced by the host: actuator id, penetration depth,
first-contact flag. -/
structure Event where
  actuator_id : Int
  depth : ℚ
  first_contact : Bool
deriving DecidableEq, Repr

/-- `self.num_motors = 4` in `TactHostSimulator.__init__`. -/
def num_motors : Nat := 4

/-- State of a `TactHostSimulator` session together with the transport
observables: lines successfully written and all write attempts. -/
structure SimState where
  is_connected : Bool
  writes : List String
  attempted : List String
deriving DecidableEq, Repr

/-- `max(0.0, min(1.0, x))` — the depth clamp performed in
`send_touch_event`. -/
def clamp01 (x : ℚ) : ℚ := max 0 (min 1 x)

/-- Round-half-even to an integer; models the rounding used by Python's
fixed-point formatting (`f"{x:.2f}"` rounds to nearest, ties to even). -/
def rhe (q : ℚ) : Int :=
  if q - (⌊q⌋ : ℚ) < 1/2 then ⌊q⌋
  else if 1/2 < q - (⌊q⌋ : ℚ) then ⌊q⌋ + 1
  else if ⌊q⌋ % 2 = 0 then ⌊q⌋ else ⌊q⌋ + 1

/-- Print a natural below 100 with two digits. -/
def twoDigits (n : Nat) : String :=
  (if n < 10 then "0" else "") ++ toString n

/-- The decimal text for `n` hundredths, e.g. `depthStr 75 = "0.75"`. -/
def depthStr (n : Int) : String :=
  toString (n / 100) ++ "." ++ twoDigits ((n % 100).toNat)

/-- Two-decimal fixed-point formatting of a rational: `f"{q:.2f}"`. -/
def formatDepth2 (q : ℚ) : String := depthStr (rhe (100 * q))

/-- The CSV line built by `send_touch_event`:
`f"{actuator_id},{penetration_depth:.2f},{first_contact_flag}\n"`, after the
depth has been clamped. -/
def encodeLine (actuator_id : Int) (depth : ℚ) (fc : Bool) : String :=
  toString actuator_id ++ "," ++ formatDepth2 (clamp01 depth) ++ "," ++
    (if fc then "1" else "0") ++ "\n"

/-- `TactHostSimulator.send_touch_event`.  Returns the boolean result and the
updated session/transport state.  Control flow follows the source: not
connected → `False`; actuator id out of `[0, num_motors)` → `False`; otherwise
clamp the depth, format the CSV line and attempt the serial write, which
raises (caught, returning `False`) iff the fault schedule says so. -/
def send_touch_event (fail : Nat → Bool) (s : SimState)
    (actuator_id : Int) (penetration_depth : ℚ) (first_contact : Bool) :
    Bool × SimState :=
  if s.is_connected = false then (false, s)
  else if actuator_id < 0 ∨ (num_motors : Int) ≤ actuator_id then (false, s)
  else
    let message := encodeLine actuator_id penetration_depth first_contact
    if fail s.attempted.length then
      (false, { s with attempted := s.attempted ++ [message] })
    else
      (true, { s with attempted := s.attempted ++ [message],
                      writes := s.writes ++ [message] })

/-- Sequentially drive a list of events through `send_touch_event`, ignoring
the per-event boolean results exactly as the gesture methods of
`TactHostSimulator` do. -/
def playEvents (fail : Nat → Bool) (s : SimState) (evs : List Event) :
    SimState :=
  evs.foldl
    (fun st e => (send_touch_event fail st e.actuator_id e.depth e.first_contact).2)
    s

/-- The event sequence of `gesture_stroke`: `steps = int(duration * 20)`
ticks; per tick, per motor, `phase = (step/steps)*2*3.14159`,
`motor_phase = phase + motor_id*3.14159/2`,
`depth = max(0, intensity*(0.5 + 0.5*abs(sin(motor_phase))))`,
`first_contact = (step == 0 and motor_id == 0)`; then one release event
`(0.0, False)` per motor. -/
def strokeEvents (sinq : ℚ → ℚ) (duration intensity : ℚ) : List Event :=
  let steps := (⌊duration * 20⌋).toNat
  ((List.range steps).map fun (step : Nat) =>
    (List.range num_motors).map fun (motor_id : Nat) =>
      let phase := ((step : ℚ) / (steps : ℚ)) * 2 * 3.14159
      let motor_phase := phase + (motor_id : ℚ) * 3.14159 / 2
      let depth := max 0 (intensity * (0.5 + 0.5 * |sinq motor_phase|))
      ⟨(motor_id : Int), depth, step == 0 && motor_id == 0⟩).flatten
  ++ (List.range num_motors).map fun (motor_id : Nat) => ⟨(motor_id : Int), 0, false⟩

/-- The triangular intensity of `gesture_squeeze` at one tick:
`(step/(steps//2))*max_intensity` in the first half,
`((steps-step)/(steps//2))*max_intensity` in the second.
Caution: at `steps = 1` the source divides by `steps//2 = 0` and raises
`ZeroDivisionError` out of `gesture_squeeze` before any send, while total ℚ
division returns `0` here — so every theorem about squeeze sequences either
fixes `steps = 30` or excludes `steps = 1` by hypothesis. -/
def squeezeDepth (steps : Nat) (max_intensity : ℚ) (step : Nat) : ℚ :=
  if step < steps / 2 then
    ((step : ℚ) / ((steps / 2 : Nat) : ℚ)) * max_intensity
  else
    (((steps : ℚ) - (step : ℚ)) / ((steps / 2 : Nat) : ℚ)) * max_intensity

/-- The event sequence of `gesture_squeeze`: `steps = int(duration*20)` ticks,
each tick applying the triangular intensity to all motors with
`first_contact = (step == 0)`, then one release event per motor. -/
def squeezeEvents (duration max_intensity : ℚ) : List Event :=
  ((List.range ((⌊duration * 20⌋).toNat)).map fun (step : Nat) =>
    (List.range num_motors).map fun (motor_id : Nat) =>
      ⟨(motor_id : Int), squeezeDepth ((⌊duration * 20⌋).toNat) max_intensity step,
        step == 0⟩).flatten
  ++ (List.range num_motors).map fun (motor_id : Nat) => ⟨(motor_id : Int), 0, false⟩

/-- The 4-event sequence of `gesture_pat`. -/
def patEvents (motor_id : Int) (intensity : ℚ) : List Event :=
  [⟨motor_id, intensity, true⟩,
   ⟨motor_id, intensity * 0.7, false⟩,
   ⟨motor_id, intensity * 0.4, false⟩,
   ⟨motor_id, 0, false⟩]

/-- The 2-event sequence of `gesture_poke`. -/
def pokeEvents (motor_id : Int) (intensity : ℚ) : List Event :=
  [⟨motor_id, intensity, true⟩, ⟨motor_id, 0, false⟩]

/-- `TactHostSimulator.gesture_stroke`: sends each stroke event in order,
never inspecting the per-send results. -/
def gesture_stroke (sinq : ℚ → ℚ) (fail : Nat → Bool) (s : SimState)
    (duration intensity : ℚ) : SimState :=
  playEvents fail s (strokeEvents sinq duration intensity)

/-- `TactHostSimulator.gesture_pat`. -/
def gesture_pat (fail : Nat → Bool) (s : SimState) (motor_id : Int)
    (intensity : ℚ) : SimState :=
  playEvents fail s (patEvents motor_id intensity)

/-- `TactHostSimulator.gesture_poke`. -/
def gesture_poke (fail : Nat → Bool) (s : SimState) (motor_id : Int)
    (intensity : ℚ) : SimState :=
  playEvents fail s (pokeEvents motor_id intensity)

/-- `TactHostSimulator.gesture_squeeze`. -/
def gesture_squeeze (fail : Nat → Bool) (s : SimState)
    (duration max_intensity : ℚ) : SimState :=
  playEvents fail s (squeezeEvents duration max_intensity)

/-- Projection of an event to its (actuator, first-contact) tag — the part of
a stroke event that does not depend on the sine. -/
def eventTag (e : Event) : Int × Bool := (e.actuator_id, e.first_contact)

/-- The (actuator, first-contact) tags of a stroke sequence with `steps`
ticks, as a concrete sine-free list. -/
def strokeProj (steps : Nat) : List (Int × Bool) :=
  ((List.range steps).map fun (step : Nat) =>
    (List.range num_motors).map fun (motor_id : Nat) =>
      ((motor_id : Int), step == 0 && motor_id == 0)).flatten
  ++ (List.range num_motors).map fun (motor_id : Nat) => ((motor_id : Int), false)

/-- Round a rational to two decimals, half to even: the value denoted by its
two-decimal fixed-point print. -/
def round2 (q : ℚ) : ℚ := ((rhe (100 * q) : Int) : ℚ) / 100

/-- Split a character list on a separator (like `str.split(",")`). -/
def splitOnChar (c : Char) : List Char → List (List Char)
  | [] => [[]]
  | x :: xs =>
    match splitOnChar c xs with
    | [] => [[]]
    | g :: gs => if x = c then [] :: g :: gs else (x :: g) :: gs

/-- The value of a decimal digit character. -/
def digitVal? (c : Char) : Option Nat :=
  if c.isDigit then some (c.toNat - 48) else none

/-- Parse a non-empty all-digit character list as a natural number. -/
def parseNatChars (cs : List Char) : Option Nat :=
  match cs with
  | [] => none
  | _ => cs.foldl
      (fun acc c => acc.bind fun n => (digitVal? c).map fun d => 10 * n + d)
      (some 0)

/-- Parse an optionally negated digit string as an integer. -/
def parseIntChars (cs : List Char) : Option Int :=
  match cs with
  | '-' :: rest => (parseNatChars rest).map fun n => -(n : Int)
  | _ => (parseNatChars cs).map fun n => (n : Int)

/-- Modelled from the spec: the device-side decode of one wire line
`"<actuator_id:int>,<depth:fixed 2-decimal float>,<first_contact:0|1>\n"`
(§6; the firmware that parses these lines is not part of src/).  Returns the
actuator id, the depth in hundredths, and the flag. -/
def parseLine (line : String) : Option (Int × Nat × Bool) :=
  match line.data.getLast? with
  | none => none
  | some c =>
    if c = '\n' then
      match splitOnChar ',' line.data.dropLast with
      | [f1, f2, f3] =>
        (match parseIntChars f1, splitOnChar '.' f2 with
        | some id, [ip, fp] =>
          if fp.length = 2 then
            match parseNatChars ip, parseNatChars fp with
            | some i, some f =>
              if f3 = ['1'] then some (id, 100 * i + f, true)
              else if f3 = ['0'] then some (id, 100 * i + f, false)
              else none
            | _, _ => none
          else none
        | _, _ => none)
      | _ => none
    else none

/-- Modelled from the spec: decoding a wire line to a `TouchEvent`, the
hundredths field denoting `h/100` as the depth. -/
def decodeLine (line : String) : Option Event :=
  (parseLine line).map fun r => ⟨r.1, (r.2.1 : ℚ) / 100, r.2.2⟩

/-- State of a `TactValidator` run: whether `serial_connection` is set, the
transport observables, the `test_results` log (name, passed; details and
timestamp elided), and the number of `time.time()` reads made so far. -/
structure ValState where
  conn : Bool
  writes : List String
  attempted : List String
  results : List (String × Bool)
  timeCalls : Nat
deriving DecidableEq, Repr

/-- `TactValidator.log_result` (the timestamp consumes one clock read). -/
def log_result (v : ValState) (test_name : String) (passed : Bool) : ValState :=
  { v with results := v.results ++ [(test_name, passed)],
           timeCalls := v.timeCalls + 1 }

/-- `TactValidator.send_command`: no connection → `False`; otherwise format
the CSV line (note: no clamping here) and attempt the write; on failure a
`("Command Send", False)` entry is logged. -/
def send_command (fail : Nat → Bool) (v : ValState) (actuator_id : Int)
    (penetration : ℚ) (first_contact : Bool) : Bool × ValState :=
  if v.conn = false then (false, v)
  else
    let message := toString actuator_id ++ "," ++ formatDepth2 penetration ++
      "," ++ (if first_contact then "1" else "0") ++ "\n"
    if fail v.attempted.length then
      (false, log_result { v with attempted := v.attempted ++ [message] }
        "Command Send" false)
    else
      (true, { v with attempted := v.attempted ++ [message],
                      writes := v.writes ++ [message] })

/-- A raw `serial_connection.write` of a literal line inside try/except as in
`test_error_handling` (no connection object → the call raises). -/
def rawWrite (fail : Nat → Bool) (v : ValState) (line : String) :
    Bool × ValState :=
  if v.conn = false then (false, v)
  else if fail v.attempted.length then
    (false, { v with attempted := v.attempted ++ [line] })
  else
    (true, { v with attempted := v.attempted ++ [line],
                    writes := v.writes ++ [line] })

/-- Send a batch of commands counting the successes, as the stage loops do. -/
def countSends (fail : Nat → Bool) (v : ValState)
    (cmds : List (Int × ℚ × Bool)) : Nat × ValState :=
  cmds.foldl
    (fun p e =>
      let r := send_command fail p.2 e.1 e.2.1 e.2.2
      (p.1 + (if r.1 then 1 else 0), r.2))
    (0, v)

/-- `TactValidator.test_basic_communication`. -/
def test_basic_communication (fail : Nat → Bool) (v : ValState) :
    Bool × ValState :=
  let r := countSends fail v
    [(0, 0.5, true), (1, 0.3, false), (2, 0.0, false), (3, 0.8, true)]
  let passed := r.1 == 4
  (passed, log_result r.2 "Basic Communication" passed)

/-- One motor's activate/deactivate pair in `test_motor_response`. -/
def motorPair (fail : Nat → Bool) (v : ValState) (motor_id : Int) :
    Bool × ValState :=
  let a := send_command fail v motor_id 0.7 true
  if a.1 then
    let b := send_command fail a.2 motor_id 0.0 false
    (b.1, b.2)
  else (false, a.2)

/-- `TactValidator.test_motor_response`: passes iff at least 3 of the 4
motors complete their pair. -/
def test_motor_response (fail : Nat → Bool) (v : ValState) : Bool × ValState :=
  let r := (List.range 4).foldl
    (fun p m =>
      let q := motorPair fail p.2 ((m : Nat) : Int)
      (p.1 + (if q.1 then 1 else 0), q.2))
    (0, v)
  let passed := decide (3 ≤ r.1)
  (passed, log_result r.2 "Motor Response" passed)

/-- Send one sequence with early exit on the first failure, as the inner loop
of `test_first_contact_detection` does. -/
def sendSeq (fail : Nat → Bool) : ValState → List (Int × ℚ × Bool) →
    Bool × ValState
  | v, [] => (true, v)
  | v, e :: rest =>
    let r := send_command fail v e.1 e.2.1 e.2.2
    if r.1 then sendSeq fail r.2 rest else (false, r.2)

/-- The three fixed sequences of `test_first_contact_detection`. -/
def test_sequences : List (List (Int × ℚ × Bool)) :=
  [[(0, 0.6, true), (0, 0.6, false), (0, 0.0, false)],
   [(1, 0.0, false), (1, 0.5, true), (1, 0.0, false)],
   [(2, 0.4, false), (2, 0.8, false), (2, 0.0, false)]]

/-- `TactValidator.test_first_contact_detection`. -/
def test_first_contact_detection (fail : Nat → Bool) (v : ValState) :
    Bool × ValState :=
  let r := test_sequences.foldl
    (fun p sq =>
      let q := sendSeq fail p.2 sq
      (p.1 + (if q.1 then 1 else 0), q.2))
    (0, v)
  let passed := r.1 == 3
  (passed, log_result r.2 "First Contact Detection" passed)

/-- The intensity levels of `test_intensity_scaling`. -/
def intensity_levels : List ℚ := [0.1, 0.3, 0.5, 0.7, 0.9]

/-- `TactValidator.test_intensity_scaling`: first-contact send at the lowest
level (failure is an early logged failure), then the four follow-ups, then a
stop command whose result is ignored. -/
def test_intensity_scaling (fail : Nat → Bool) (v : ValState) :
    Bool × ValState :=
  let a := send_command fail v 1 0.1 true
  if a.1 then
    let r := countSends fail a.2
      (intensity_levels.tail.map fun lvl => ((1 : Int), lvl, false))
    let b := send_command fail r.2 1 0.0 false
    let passed := r.1 == 4
    (passed, log_result b.2 "Intensity Scaling" passed)
  else (false, log_result a.2 "Intensity Scaling" false)

/-- The 20 commands of `test_timing_performance`. -/
def timingCmds : List (Int × ℚ × Bool) :=
  (List.range 20).map fun (i : Nat) =>
    (((i % 4 : Nat) : Int), if i % 2 == 0 then (0.5 : ℚ) else 0.0, i % 4 == 0)

/-- `TactValidator.test_timing_performance`: 20 sends at nominal 50 ms pace;
passes iff all 20 succeed and the measured wall-clock duration is within
0.5 s of the 1.0 s nominal target. -/
def test_timing_performance (fail : Nat → Bool) (now : Nat → ℚ)
    (v : ValState) : Bool × ValState :=
  let t0 := now v.timeCalls
  let v0 : ValState := { v with timeCalls := v.timeCalls + 1 }
  let r := countSends fail v0 timingCmds
  let t1 := now r.2.timeCalls
  let v1 : ValState := { r.2 with timeCalls := r.2.timeCalls + 1 }
  let total := t1 - t0
  let timing_ok : Bool := decide (|total - 1| < 1/2)
  let commands_ok := r.1 == 20
  let passed := timing_ok && commands_ok
  (passed, log_result v1 "Timing Performance" passed)

/-- The six deliberately malformed lines of `test_error_handling`. -/
def invalid_commands : List String :=
  ["5,0.5,1\n", "0,1.5,1\n", "0,-0.1,1\n", "abc,0.5,1\n", "0,0.5\n", "\n"]

/-- `TactValidator.test_error_handling`: write the six malformed lines raw,
counting the writes that do not raise; then send a valid event and, only if
it succeeded, a release whose result is ignored; passes iff all six raw
writes were accepted and the valid event send succeeded. -/
def test_error_handling (fail : Nat → Bool) (v : ValState) : Bool × ValState :=
  let r := invalid_commands.foldl
    (fun p cmd =>
      let w := rawWrite fail p.2 cmd
      (p.1 + (if w.1 then 1 else 0), w.2))
    (0, v)
  let s1 := send_command fail r.2 0 0.5 true
  let r2 := if s1.1 then
      let s2 := send_command fail s1.2 0 0.0 false
      (true, s2.2)
    else (false, s1.2)
  let passed := (r.1 == 6) && r2.1
  (passed, log_result r2.2 "Error Handling" passed)

/-- The device-ready banner marker required by `TactValidator.connect`. -/
def bannerMarker : String := "Tact Haptic Controller Ready"

/-- Whether the first list is an initial segment of the second. -/
def leadsWith : List Char → List Char → Bool
  | [], _ => true
  | _ :: _, [] => false
  | a :: as, b :: bs => a == b && leadsWith as bs

/-- Whether `needle` occurs contiguously in the haystack (Python's `in`). -/
def containsSeq (needle : List Char) : List Char → Bool
  | [] => leadsWith needle []
  | c :: cs => leadsWith needle (c :: cs) || containsSeq needle cs

/-- Whether a polled line exists and contains the ready banner. -/
def bannerIn (o : Option String) : Bool :=
  match o with
  | some line => containsSeq bannerMarker.data line.data
  | none => false

/-- The bounded 10-attempt handshake poll of `TactValidator.connect`:
attempt `i` sees `polls i`; a read line containing the banner stops the loop
with success, anything else moves to the next attempt. -/
def readyLoop (polls : Nat → Option String) : Nat → Nat → Bool
  | 0, _ => false
  | n + 1, i =>
    match polls i with
    | some line =>
      if containsSeq bannerMarker.data line.data then true
      else readyLoop polls n (i + 1)
    | none => readyLoop polls n (i + 1)

/-- `TactValidator.connect`: resolve the port (given or discovered), open the
serial device, then require the ready banner within the bounded poll;
absence of the banner logs a failed Connection result and returns `False`. -/
def val_connect (polls : Nat → Option String) (openOk : Bool)
    (port found : Option String) (v : ValState) : Bool × ValState :=
  let portR := match port with | some p => some p | none => found
  match portR with
  | none => (false, log_result v "Connection" false)
  | some _ =>
    if openOk then
      let v1 : ValState := { v with conn := true }
      if readyLoop polls 10 0 then (true, log_result v1 "Connection" true)
      else (false, log_result v1 "Connection" false)
    else (false, log_result v "Connection" false)

/-- `TactHostSimulator.connect`: resolve the port, open the serial device,
set `is_connected` and report success; the 10-iteration initial read loop
only prints what it reads, so the result never depends on the polled lines. -/
def sim_connect (_polls : Nat → Option String) (openOk : Bool)
    (port found : Option String) (s : SimState) : Bool × SimState :=
  let portR := match port with | some p => some p | none => found
  match portR with
  | none => (false, s)
  | some _ =>
    if openOk then (true, { s with is_connected := true }) else (false, s)

/-- `1` for a passed stage, `0` otherwise (the `passed_tests` counter). -/
def cnt (b : Bool) : Nat := if b then 1 else 0

/-- The six stages of `run_full_validation` run in order on the shared
state, with the count of passing stages. -/
def runStages (fail : Nat → Bool) (now : Nat → ℚ) (v : ValState) :
    Nat × ValState :=
  let r1 := test_basic_communication fail v
  let r2 := test_motor_response fail r1.2
  let r3 := test_first_contact_detection fail r2.2
  let r4 := test_intensity_scaling fail r3.2
  let r5 := test_timing_performance fail now r4.2
  let r6 := test_error_handling fail r5.2
  (cnt r1.1 + cnt r2.1 + cnt r3.1 + cnt r4.1 + cnt r5.1 + cnt r6.1, r6.2)

/-- `TactValidator.run_full_validation`: a failed connect ends the run with
failure; otherwise all six stages run and the run passes iff all six
passed. -/
def run_full_validation (fail : Nat → Bool) (now : Nat → ℚ)
    (polls : Nat → Option String) (openOk : Bool)
    (port found : Option String) (v : ValState) : Bool × ValState :=
  let c := val_connect polls openOk port found v
  if c.1 then
    let r := runStages fail now c.2
    (r.1 == 6, r.2)
  else (false, c.2)

/-- The names logged by the six validation stages, in run order. -/
def stageNames : List String :=
  ["Basic Communication", "Motor Response", "First Contact Detection",
   "Intensity Scaling", "Timing Performance", "Error Handling"]

/-- Whether a result entry belongs to one of the six stages. -/
def isStage (r : String × Bool) : Bool := stageNames.contains r.1

/-- A fresh validator state. -/
def initVal : ValState := ⟨false, [], [], [], 0⟩

/-- A validator state with an open connection and a fresh transport. -/
def readyVal : ValState := ⟨true, [], [], [], 0⟩

/-- A fresh simulator state. -/
def initSim : SimState := ⟨false, [], []⟩

/-- A connected simulator state with a fresh transport. -/
def readySim : SimState := ⟨true, [], []⟩

theorem send_touch_event_valid (fail : Nat → Bool) (s : SimState)
    (actuator_id : Int) (d : ℚ) (fc : Bool) (hc : s.is_connected = true)
    (h0 : 0 ≤ actuator_id) (h4 : actuator_id < (num_motors : Int)) :
    send_touch_event fail s actuator_id d fc =
      if fail s.attempted.length then
        (false, { s with attempted := s.attempted ++ [encodeLine actuator_id d fc] })
      else
        (true, { s with attempted := s.attempted ++ [encodeLine actuator_id d fc],
                        writes := s.writes ++ [encodeLine actuator_id d fc] }) := by
  have hrange : ¬ (actuator_id < 0 ∨ (num_motors : Int) ≤ actuator_id) := by
    push_neg
    exact ⟨h0, h4⟩
  simp only [send_touch_event, hc, Bool.true_eq_false, if_false, hrange, if_true]

theorem send_step (fail : Nat → Bool) (s : SimState) (actuator_id : Int)
    (d : ℚ) (fc : Bool) (hc : s.is_connected = true) (h0 : 0 ≤ actuator_id)
    (h4 : actuator_id < (num_motors : Int)) :
    (send_touch_event fail s actuator_id d fc).2.is_connected = true ∧
    (send_touch_event fail s actuator_id d fc).2.attempted.length
      = s.attempted.length + 1 ∧
    ∃ t, (send_touch_event fail s actuator_id d fc).2.writes = s.writes ++ t := by
  rw [send_touch_event_valid fail s actuator_id d fc hc h0 h4]
  cases h : fail s.attempted.length
  · exact ⟨by simp [hc], by simp, ⟨[encodeLine actuator_id d fc], by simp⟩⟩
  · exact ⟨by simp [hc], by simp, ⟨[], by simp⟩⟩

theorem playEvents_spec (fail : Nat → Bool) (evs : List Event) :
    ∀ s : SimState, s.is_connected = true →
    (∀ e ∈ evs, 0 ≤ e.actuator_id ∧ e.actuator_id < (num_motors : Int)) →
    (playEvents fail s evs).is_connected = true ∧
    (playEvents fail s evs).attempted.length
      = s.attempted.length + evs.length ∧
    ∃ t, (playEvents fail s evs).writes = s.writes ++ t := by
  induction evs with
  | nil =>
    intro s hc _
    exact ⟨hc, by simp [playEvents], ⟨[], by simp [playEvents]⟩⟩
  | cons e rest ih =>
    intro s hc hv
    have he := hv e (by simp)
    have hstep := send_step fail s e.actuator_id e.depth e.first_contact hc he.1 he.2
    have hrec := ih (send_touch_event fail s e.actuator_id e.depth e.first_contact).2
      hstep.1 (fun e' h' => hv e' (by simp [h']))
    have hplay : playEvents fail s (e :: rest) =
        playEvents fail (send_touch_event fail s e.actuator_id e.depth e.first_contact).2 rest := rfl
    rw [hplay]
    refine ⟨hrec.1, ?_, ?_⟩
    · rw [hrec.2.1, hstep.2.1]
      simp [Nat.add_assoc, Nat.add_comm 1 rest.length]
    · obtain ⟨t1, ht1⟩ := hstep.2.2
      obtain ⟨t2, ht2⟩ := hrec.2.2
      exact ⟨t1 ++ t2, by rw [ht2, ht1, List.append_assoc]⟩

theorem patEvents_valid (motor_id : Int) (intens : ℚ)
    (h0 : 0 ≤ motor_id) (h4 : motor_id < (num_motors : Int)) :
    ∀ e ∈ patEvents motor_id intens,
      0 ≤ e.actuator_id ∧ e.actuator_id < (num_motors : Int) := by
  intro e he
  simp only [patEvents, List.mem_cons, List.not_mem_nil, or_false] at he
  rcases he with rfl | rfl | rfl | rfl <;> exact ⟨h0, h4⟩

theorem pokeEvents_valid (motor_id : Int) (intens : ℚ)
    (h0 : 0 ≤ motor_id) (h4 : motor_id < (num_motors : Int)) :
    ∀ e ∈ pokeEvents motor_id intens,
      0 ≤ e.actuator_id ∧ e.actuator_id < (num_motors : Int) := by
  intro e he
  simp only [pokeEvents, List.mem_cons, List.not_mem_nil, or_false] at he
  rcases he with rfl | rfl <;> exact ⟨h0, h4⟩

theorem strokeEvents_valid (sinq : ℚ → ℚ) (duration intens : ℚ) :
    ∀ e ∈ strokeEvents sinq duration intens,
      0 ≤ e.actuator_id ∧ e.actuator_id < (num_motors : Int) := by
  intro e he
  simp only [strokeEvents, List.mem_append, List.mem_flatten, List.mem_map,
    List.mem_range] at he
  rcases he with ⟨l, ⟨step, hstep, rfl⟩, hel⟩ | ⟨m, hm, rfl⟩
  · simp only [List.mem_map, List.mem_range] at hel
    obtain ⟨m, hm, rfl⟩ := hel
    dsimp only
    exact ⟨Int.natCast_nonneg m, by exact_mod_cast hm⟩
  · dsimp only
    exact ⟨Int.natCast_nonneg m, by exact_mod_cast hm⟩

theorem squeezeEvents_valid (duration maxI : ℚ) :
    ∀ e ∈ squeezeEvents duration maxI,
      0 ≤ e.actuator_id ∧ e.actuator_id < (num_motors : Int) := by
  intro e he
  simp only [squeezeEvents, List.mem_append, List.mem_flatten, List.mem_map,
    List.mem_range] at he
  rcases he with ⟨l, ⟨step, hstep, rfl⟩, hel⟩ | ⟨m, hm, rfl⟩
  · simp only [List.mem_map, List.mem_range] at hel
    obtain ⟨m, hm, rfl⟩ := hel
    dsimp only
    exact ⟨Int.natCast_nonneg m, by exact_mod_cast hm⟩
  · dsimp only
    exact ⟨Int.natCast_nonneg m, by exact_mod_cast hm⟩

/-- C10: sending a touch event while the session is not connected returns
`False`, writes nothing to the transport and leaves the whole session state
unchanged, for every actuator id, depth and first-contact flag. -/
theorem c10_send_not_connected (fail : Nat → Bool) (s : SimState)
    (actuator_id : Int) (depth : ℚ) (fc : Bool)
    (h : s.is_connected = false) :
    send_touch_event fail s actuator_id depth fc = (false, s) := by
  simp [send_touch_event, h]

theorem c10_send_not_connected_witness :
    initSim.is_connected = false ∧
    send_touch_event (fun _ => false) initSim 2 (1/2) true = (false, initSim) :=
  ⟨rfl, c10_send_not_connected (fun _ => false) initSim 2 (1/2) true rfl⟩

/-- C4: an actuator id outside `[0, num_motors)` is rejected before
transmission — `send_touch_event` returns `False` with the state (hence the
wire) unchanged — for every depth and first-contact value; the id is never
clamped. -/
theorem c4_send_invalid_id (fail : Nat → Bool) (s : SimState)
    (actuator_id : Int) (depth : ℚ) (fc : Bool)
    (h : actuator_id < 0 ∨ (num_motors : Int) ≤ actuator_id) :
    send_touch_event fail s actuator_id depth fc = (false, s) := by
  cases hc : s.is_connected <;> simp [send_touch_event, hc, h]

theorem c4_send_invalid_id_witness :
    ((5 : Int) < 0 ∨ (num_motors : Int) ≤ 5) ∧
    send_touch_event (fun _ => false) readySim 5 (1/2) true = (false, readySim) :=
  ⟨Or.inr (by decide),
   c4_send_invalid_id (fun _ => false) readySim 5 (1/2) true (Or.inr (by decide))⟩

/-- C1 as stated is false: with a transport whose very first write fails,
`gesture_pat` does not abort — it attempts all four events and the three
events after the failed one are all sent successfully. -/
theorem c1_counterexample :
    (fun n => n == 0) 0 = true ∧
    (gesture_pat (fun n => n == 0) readySim 1 (4/5)).attempted.length = 4 ∧
    (gesture_pat (fun n => n == 0) readySim 1 (4/5)).writes.length = 3 := by
  decide

/-- C1 amended: a failed send does not abort gesture playback.  For every
fault schedule, connected session and in-range target, pat, poke and stroke
attempt every event of their sequences (the per-event failure is only
reflected in `send_touch_event`'s ignored boolean result, and no error is
surfaced to the gesture caller), and already-sent events stay on the wire —
the write log is only ever extended, never rolled back.  The same holds for
squeeze whenever `steps = int(duration*20) ≠ 1`; at `steps = 1` the source
raises `ZeroDivisionError` (from `steps//2 = 0`) before any send, an error
path outside this model, so that case is excluded by hypothesis. -/
theorem c1_amended (fail : Nat → Bool) (s : SimState)
    (hc : s.is_connected = true) (sinq : ℚ → ℚ) (duration intens : ℚ)
    (motor_id : Int) (h0 : 0 ≤ motor_id) (h4 : motor_id < (num_motors : Int)) :
    ((gesture_pat fail s motor_id intens).attempted.length
        = s.attempted.length + 4 ∧
      ∃ t, (gesture_pat fail s motor_id intens).writes = s.writes ++ t) ∧
    ((gesture_poke fail s motor_id intens).attempted.length
        = s.attempted.length + 2 ∧
      ∃ t, (gesture_poke fail s motor_id intens).writes = s.writes ++ t) ∧
    ((gesture_stroke sinq fail s duration intens).attempted.length
        = s.attempted.length + (strokeEvents sinq duration intens).length ∧
      ∃ t, (gesture_stroke sinq fail s duration intens).writes
        = s.writes ++ t) ∧
    ((⌊duration * 20⌋).toNat ≠ 1 →
      (gesture_squeeze fail s duration intens).attempted.length
        = s.attempted.length + (squeezeEvents duration intens).length ∧
      ∃ t, (gesture_squeeze fail s duration intens).writes = s.writes ++ t) := by
  have hpat := playEvents_spec fail (patEvents motor_id intens) s hc
    (patEvents_valid motor_id intens h0 h4)
  have hpoke := playEvents_spec fail (pokeEvents motor_id intens) s hc
    (pokeEvents_valid motor_id intens h0 h4)
  have hstroke := playEvents_spec fail (strokeEvents sinq duration intens) s hc
    (strokeEvents_valid sinq duration intens)
  have hsqueeze := playEvents_spec fail (squeezeEvents duration intens) s hc
    (squeezeEvents_valid duration intens)
  exact ⟨⟨hpat.2.1, hpat.2.2⟩, ⟨hpoke.2.1, hpoke.2.2⟩,
         ⟨hstroke.2.1, hstroke.2.2⟩,
         fun _ => ⟨hsqueeze.2.1, hsqueeze.2.2⟩⟩

theorem c1_amended_witness :
    readySim.is_connected = true ∧ (0 : Int) ≤ 1 ∧ (1 : Int) < (num_motors : Int) ∧
    (⌊(2 : ℚ) * 20⌋).toNat ≠ 1 ∧
    (((gesture_pat (fun n => n == 0) readySim 1 (4/5)).attempted.length
        = readySim.attempted.length + 4 ∧
      ∃ t, (gesture_pat (fun n => n == 0) readySim 1 (4/5)).writes
        = readySim.writes ++ t) ∧
    ((gesture_poke (fun n => n == 0) readySim 1 (4/5)).attempted.length
        = readySim.attempted.length + 2 ∧
      ∃ t, (gesture_poke (fun n => n == 0) readySim 1 (4/5)).writes
        = readySim.writes ++ t) ∧
    ((gesture_stroke (fun _ => 0) (fun n => n == 0) readySim 2 (4/5)).attempted.length
        = readySim.attempted.length + (strokeEvents (fun _ => 0) 2 (4/5)).length ∧
      ∃ t, (gesture_stroke (fun _ => 0) (fun n => n == 0) readySim 2 (4/5)).writes
        = readySim.writes ++ t) ∧
    ((gesture_squeeze (fun n => n == 0) readySim 2 (4/5)).attempted.length
        = readySim.attempted.length + (squeezeEvents 2 (4/5)).length ∧
      ∃ t, (gesture_squeeze (fun n => n == 0) readySim 2 (4/5)).writes
        = readySim.writes ++ t)) :=
  have hsq : (⌊(2 : ℚ) * 20⌋).toNat ≠ 1 := by
    rw [show ⌊(2 : ℚ) * 20⌋ = 40 from by norm_num]
    decide
  have h := c1_amended (fun n => n == 0) readySim rfl (fun _ => 0) 2 (4/5) 1
    (by decide) (by decide)
  ⟨rfl, by decide, by decide, hsq, h.1, h.2.1, h.2.2.1, h.2.2.2 hsq⟩

theorem strokeEvents_tag (sinq : ℚ → ℚ) (duration intens : ℚ) :
    (strokeEvents sinq duration intens).map eventTag
      = strokeProj ((⌊duration * 20⌋).toNat) := by
  unfold strokeEvents strokeProj
  simp only [List.map_append, List.map_flatten, List.map_map]
  rfl

set_option maxRecDepth 100000 in
/-- C3: Stroke(duration=2.0, intensity=0.6) over the 4 actuators emits
exactly 40·4 + 4 = 164 events, the first event targets actuator 0 with
`first_contact = true`, and exactly one event of the whole sequence has
`first_contact = true` — for every value of the sine function. -/
theorem c3_stroke_census (sinq : ℚ → ℚ) :
    (strokeEvents sinq 2 0.6).length = 164 ∧
    ((strokeEvents sinq 2 0.6).map eventTag).head? = some (0, true) ∧
    (strokeEvents sinq 2 0.6).countP (fun e => e.first_contact) = 1 := by
  have hfl : ⌊(2 : ℚ) * 20⌋ = 40 := by norm_num
  have hsteps : ((⌊(2 : ℚ) * 20⌋).toNat) = 40 := by rw [hfl]; rfl
  have h := strokeEvents_tag sinq 2 0.6
  rw [hsteps] at h
  refine ⟨?_, ?_, ?_⟩
  · have hlen := congrArg List.length h
    rw [List.length_map] at hlen
    rw [hlen]
    decide
  · rw [h]
    decide
  · have hcp : (strokeEvents sinq 2 0.6).countP (fun e => e.first_contact)
        = ((strokeEvents sinq 2 0.6).map eventTag).countP (fun p => p.2) := by
      rw [List.countP_map]
      rfl
    rw [hcp, h]
    decide

theorem flatten_uniform_length {α : Type} (c : Nat) (L : List (List α))
    (h : ∀ l ∈ L, l.length = c) : L.flatten.length = c * L.length := by
  induction L with
  | nil => simp
  | cons t L ih =>
    have ht : t.length = c := h t (by simp)
    have hr := ih (fun l hl => h l (by simp [hl]))
    simp only [List.flatten_cons, List.length_append, List.length_cons, ht, hr]
    ring

theorem flatten_getElem_uniform {α : Type} (c : Nat) (L : List (List α))
    (h : ∀ l ∈ L, l.length = c) : ∀ k m : Nat, m < c → k < L.length →
    L.flatten[c * k + m]? = (L[k]?.bind fun t => t[m]?) := by
  induction L with
  | nil =>
    intro k m _ hk
    simp at hk
  | cons t L ih =>
    intro k m hm hk
    have ht : t.length = c := h t (by simp)
    cases k with
    | zero =>
      simp only [Nat.mul_zero, Nat.zero_add, List.flatten_cons]
      rw [List.getElem?_append, if_pos (by omega)]
      simp
    | succ k =>
      have harith : c * (k + 1) + m = t.length + (c * k + m) := by
        rw [ht]; ring
      rw [List.flatten_cons, harith,
        List.getElem?_append_right (by omega)]
      have hr := ih (fun l hl => h l (by simp [hl])) k m hm (by simpa using hk)
      simp only [Nat.add_sub_cancel_left]
      simpa using hr

theorem squeezeEvents_getElem (duration maxI : ℚ) (k m : Nat)
    (hk : k < (⌊duration * 20⌋).toNat) (hm : m < num_motors) :
    (squeezeEvents duration maxI)[num_motors * k + m]?
      = some ⟨(m : Int), squeezeDepth ((⌊duration * 20⌋).toNat) maxI k,
              k == 0⟩ := by
  have hnm : num_motors = 4 := rfl
  have hunif : ∀ l ∈ (List.range ((⌊duration * 20⌋).toNat)).map
      fun (step : Nat) =>
        (List.range num_motors).map fun (motor_id : Nat) =>
          (⟨(motor_id : Int), squeezeDepth ((⌊duration * 20⌋).toNat) maxI step,
            step == 0⟩ : Event),
      l.length = num_motors := by
    intro l hl
    simp only [List.mem_map, List.mem_range] at hl
    obtain ⟨step, _, rfl⟩ := hl
    simp
  have hflen := flatten_uniform_length num_motors _ hunif
  rw [List.length_map, List.length_range] at hflen
  unfold squeezeEvents
  rw [List.getElem?_append, if_pos (by rw [hflen]; rw [hnm] at hm ⊢; omega)]
  rw [flatten_getElem_uniform num_motors _ hunif k m hm
    (by rw [List.length_map, List.length_range]; exact hk)]
  rw [List.getElem?_map, List.getElem?_range hk]
  simp only [Option.map_some', Option.some_bind]
  rw [List.getElem?_map, List.getElem?_range hm]
  simp

/-- C2 as stated is false: for Squeeze(duration=1.5, max_intensity=0.7),
`steps = 30`, and already at `k = 0` the depth emitted at tick `k` is `0`
while the depth emitted at tick `steps-1-k = 29` is `7/150 ≈ 0.047` — a gap
of one full ramp increment, far beyond any floating tolerance. -/
theorem c2_counterexample :
    ((squeezeEvents (3/2) (7/10))[num_motors * 0 + 0]?).map Event.depth
      = some 0 ∧
    ((squeezeEvents (3/2) (7/10))[num_motors * 29 + 0]?).map Event.depth
      = some (7/150) ∧
    ¬ (|(7/150 : ℚ) - 0| ≤ 1/100) := by
  have hfl : ⌊(3/2 : ℚ) * 20⌋ = 30 := by norm_num
  have hsteps : ((⌊(3/2 : ℚ) * 20⌋).toNat) = 30 := by rw [hfl]; rfl
  have h0 := squeezeEvents_getElem (3/2) (7/10) 0 0
    (by rw [hsteps]; norm_num) (by rw [show num_motors = 4 from rfl]; norm_num)
  have h29 := squeezeEvents_getElem (3/2) (7/10) 29 0
    (by rw [hsteps]; norm_num) (by rw [show num_motors = 4 from rfl]; norm_num)
  rw [hsteps] at h0 h29
  refine ⟨?_, ?_, ?_⟩
  · rw [h0]
    simp only [Option.map_some']
    norm_num [squeezeDepth]
  · rw [h29]
    simp only [Option.map_some']
    norm_num [squeezeDepth]
  · rw [sub_zero, abs_of_nonneg (by norm_num)]
    norm_num

/-- C2 amended: the Squeeze(duration=1.5, max_intensity=0.7) ramp is
symmetric under the pairing `k ↔ steps-k` (not `steps-1-k`): for every
`1 ≤ k < steps/2` and every actuator, the depth emitted at tick `k` equals
the depth emitted at tick `steps-k` exactly. -/
theorem c2_amended (k m : Nat) (hk1 : 1 ≤ k) (hk : k < 30 / 2)
    (hm : m < num_motors) :
    ((squeezeEvents (3/2) (7/10))[num_motors * k + m]?).map Event.depth
      = ((squeezeEvents (3/2) (7/10))[num_motors * (30 - k) + m]?).map
          Event.depth ∧
    squeezeDepth 30 (7/10) k = squeezeDepth 30 (7/10) (30 - k) := by
  have hfl : ⌊(3/2 : ℚ) * 20⌋ = 30 := by norm_num
  have hsteps : ((⌊(3/2 : ℚ) * 20⌋).toNat) = 30 := by rw [hfl]; rfl
  have hdepth : squeezeDepth 30 (7/10) k = squeezeDepth 30 (7/10) (30 - k) := by
    interval_cases k <;> norm_num [squeezeDepth]
  have h1 := squeezeEvents_getElem (3/2) (7/10) k m
    (by rw [hsteps]; omega) hm
  have h2 := squeezeEvents_getElem (3/2) (7/10) (30 - k) m
    (by rw [hsteps]; omega) hm
  rw [hsteps] at h1 h2
  rw [h1, h2]
  simp only [Option.map_some']
  exact ⟨by rw [hdepth], hdepth⟩

theorem c2_amended_witness :
    1 ≤ 3 ∧ 3 < 30 / 2 ∧ 0 < num_motors ∧
    (((squeezeEvents (3/2) (7/10))[num_motors * 3 + 0]?).map Event.depth
      = ((squeezeEvents (3/2) (7/10))[num_motors * (30 - 3) + 0]?).map
          Event.depth ∧
    squeezeDepth 30 (7/10) 3 = squeezeDepth 30 (7/10) (30 - 3)) :=
  ⟨by decide, by decide, by decide,
   c2_amended 3 0 (by decide) (by decide) (by decide)⟩

theorem clamp01_nonneg (x : ℚ) : 0 ≤ clamp01 x := le_max_left 0 _

theorem clamp01_le_one (x : ℚ) : clamp01 x ≤ 1 :=
  max_le (by norm_num) (min_le_left 1 x)

theorem rhe_cases (q : ℚ) : rhe q = ⌊q⌋ ∨ rhe q = ⌊q⌋ + 1 := by
  unfold rhe
  split_ifs <;> simp

theorem rhe_nonneg (q : ℚ) (h : 0 ≤ q) : 0 ≤ rhe q := by
  have hf := Int.floor_nonneg.mpr h
  rcases rhe_cases q with hr | hr <;> rw [hr] <;> omega

theorem rhe_le_100 (q : ℚ) (h : q ≤ 100) : rhe q ≤ 100 := by
  have hfl : ⌊q⌋ ≤ 100 := by
    have h1 : ⌊q⌋ ≤ ⌊(100 : ℚ)⌋ := Int.floor_le_floor h
    simpa using h1
  unfold rhe
  split_ifs with h1 h2 h3
  · exact hfl
  · have hq : (⌊q⌋ : ℚ) + 1/2 ≤ q := by linarith
    have h99 : ⌊q⌋ ≤ 99 := by
      have ha : (⌊q⌋ : ℚ) ≤ 199/2 := by linarith
      have hb : ⌊q⌋ ≤ ⌊(199/2 : ℚ)⌋ := Int.le_floor.mpr ha
      norm_num at hb
      exact hb
    omega
  · exact hfl
  · have hq : (⌊q⌋ : ℚ) + 1/2 ≤ q := by linarith
    have h99 : ⌊q⌋ ≤ 99 := by
      have ha : (⌊q⌋ : ℚ) ≤ 199/2 := by linarith
      have hb : ⌊q⌋ ≤ ⌊(199/2 : ℚ)⌋ := Int.le_floor.mpr ha
      norm_num at hb
      exact hb
    omega

theorem rhe_abs_le (q : ℚ) : |((rhe q : Int) : ℚ) - q| ≤ 1/2 := by
  have hfl := Int.floor_le q
  have hfu := Int.lt_floor_add_one q
  unfold rhe
  split_ifs with h1 h2 h3 <;> rw [abs_le] <;> constructor <;> push_cast <;>
    linarith

/-- C5: on a connected session with an in-range actuator id and a fault-free
write, the line put on the wire is exactly
`"<actuator_id>,<depth>,<flag>\n"` where the depth field prints the input
depth clamped into `[0,1]` with two-decimal fixed-point rounding (its
rounded hundredths value lying in `[0,100]`, i.e. in `[0.00, 1.00]`) and the
flag is `1` iff `first_contact` — so even out-of-range input depths yield a
well-formed clamped wire line. -/
theorem c5_wire_line (fail : Nat → Bool) (s : SimState) (actuator_id : Int)
    (depth : ℚ) (fc : Bool) (hc : s.is_connected = true)
    (h0 : 0 ≤ actuator_id) (h4 : actuator_id < (num_motors : Int))
    (hok : fail s.attempted.length = false) :
    (send_touch_event fail s actuator_id depth fc).1 = true ∧
    (send_touch_event fail s actuator_id depth fc).2.writes
      = s.writes ++ [toString actuator_id ++ ","
          ++ depthStr (rhe (100 * clamp01 depth)) ++ ","
          ++ (if fc then "1" else "0") ++ "\n"] ∧
    0 ≤ clamp01 depth ∧ clamp01 depth ≤ 1 ∧
    0 ≤ rhe (100 * clamp01 depth) ∧ rhe (100 * clamp01 depth) ≤ 100 := by
  rw [send_touch_event_valid fail s actuator_id depth fc hc h0 h4]
  simp only [hok, Bool.false_eq_true, if_false]
  refine ⟨by trivial, by rfl, clamp01_nonneg depth, clamp01_le_one depth, ?_, ?_⟩
  · exact rhe_nonneg _ (by nlinarith [clamp01_nonneg depth])
  · exact rhe_le_100 _ (by nlinarith [clamp01_le_one depth])

theorem c5_wire_line_witness :
    readySim.is_connected = true ∧ (0 : Int) ≤ 2 ∧
    (2 : Int) < (num_motors : Int) ∧
    (fun _ : Nat => false) readySim.attempted.length = false ∧
    ((send_touch_event (fun _ => false) readySim 2 (3/2) true).1 = true ∧
    (send_touch_event (fun _ => false) readySim 2 (3/2) true).2.writes
      = readySim.writes ++ [toString (2 : Int) ++ ","
          ++ depthStr (rhe (100 * clamp01 (3/2))) ++ ","
          ++ (if true then "1" else "0") ++ "\n"] ∧
    0 ≤ clamp01 (3/2 : ℚ) ∧ clamp01 (3/2 : ℚ) ≤ 1 ∧
    0 ≤ rhe (100 * clamp01 (3/2)) ∧ rhe (100 * clamp01 (3/2)) ≤ 100) :=
  ⟨rfl, by decide, by decide, rfl,
   c5_wire_line (fun _ => false) readySim 2 (3/2) true rfl
     (by decide) (by decide) rfl⟩

set_option maxRecDepth 100000 in
theorem parse_encode_key :
    ∀ idN : Nat, idN < 4 → ∀ nN : Nat, nN < 101 → ∀ fc : Bool,
      parseLine (toString ((idN : Nat) : Int) ++ "," ++ depthStr ((nN : Nat) : Int)
        ++ "," ++ (if fc then "1" else "0") ++ "\n")
        = some (((idN : Nat) : Int), nN, fc) := by
  decide

/-- C9: for every event with an in-range id, decoding the encoded wire line
recovers the id and the first-contact flag exactly and the depth clamped
into `[0,1]` up to the two-decimal formatting: the decoded depth is the
clamped depth rounded to hundredths, lies in `[0,1]`, and differs from the
clamped depth by at most `1/200`. -/
theorem c9_roundtrip (actuator_id : Int) (depth : ℚ) (fc : Bool)
    (h0 : 0 ≤ actuator_id) (h4 : actuator_id < (num_motors : Int)) :
    decodeLine (encodeLine actuator_id depth fc)
      = some ⟨actuator_id, round2 (clamp01 depth), fc⟩ ∧
    0 ≤ round2 (clamp01 depth) ∧ round2 (clamp01 depth) ≤ 1 ∧
    |round2 (clamp01 depth) - clamp01 depth| ≤ 1/200 := by
  have hcl0 := clamp01_nonneg depth
  have hcl1 := clamp01_le_one depth
  have hn0 : 0 ≤ rhe (100 * clamp01 depth) := rhe_nonneg _ (by nlinarith)
  have hn1 : rhe (100 * clamp01 depth) ≤ 100 := rhe_le_100 _ (by nlinarith)
  have hid : ((actuator_id.toNat : Nat) : Int) = actuator_id :=
    Int.toNat_of_nonneg h0
  have h4' : actuator_id < 4 := by simpa [num_motors] using h4
  have hidlt : actuator_id.toNat < 4 := by omega
  have hnnat : (((rhe (100 * clamp01 depth)).toNat : Nat) : Int)
      = rhe (100 * clamp01 depth) := Int.toNat_of_nonneg hn0
  have hnlt : (rhe (100 * clamp01 depth)).toNat < 101 := by omega
  have hkey := parse_encode_key actuator_id.toNat hidlt
    (rhe (100 * clamp01 depth)).toNat hnlt fc
  rw [hid, hnnat] at hkey
  have hcast : (((rhe (100 * clamp01 depth)).toNat : Nat) : ℚ)
      = ((rhe (100 * clamp01 depth) : Int) : ℚ) := by exact_mod_cast hnnat
  have henc : encodeLine actuator_id depth fc
      = toString actuator_id ++ "," ++ depthStr (rhe (100 * clamp01 depth))
        ++ "," ++ (if fc then "1" else "0") ++ "\n" := rfl
  refine ⟨?_, ?_, ?_, ?_⟩
  · rw [henc]
    unfold decodeLine
    rw [hkey]
    simp only [Option.map_some', round2]
    rw [hcast]
  · simp only [round2]
    apply div_nonneg _ (by norm_num)
    exact_mod_cast hn0
  · simp only [round2]
    rw [div_le_one (by norm_num)]
    exact_mod_cast hn1
  · have habs := rhe_abs_le (100 * clamp01 depth)
    simp only [round2]
    have hrw : ((rhe (100 * clamp01 depth) : Int) : ℚ) / 100 - clamp01 depth
        = (((rhe (100 * clamp01 depth) : Int) : ℚ) - 100 * clamp01 depth) / 100 := by
      ring
    rw [hrw, abs_div, abs_of_pos (show (0:ℚ) < 100 by norm_num)]
    linarith

theorem c9_roundtrip_witness :
    (0 : Int) ≤ 2 ∧ (2 : Int) < (num_motors : Int) ∧
    (decodeLine (encodeLine 2 (3/4) true)
      = some ⟨2, round2 (clamp01 (3/4)), true⟩ ∧
    0 ≤ round2 (clamp01 (3/4 : ℚ)) ∧ round2 (clamp01 (3/4 : ℚ)) ≤ 1 ∧
    |round2 (clamp01 (3/4 : ℚ)) - clamp01 (3/4 : ℚ)| ≤ 1/200) :=
  ⟨by decide, by decide, c9_roundtrip 2 (3/4) true (by decide) (by decide)⟩

theorem readyLoop_iff (polls : Nat → Option String) :
    ∀ n i : Nat, readyLoop polls n i = true ↔
      ∃ j, j < n ∧ bannerIn (polls (i + j)) = true := by
  intro n
  induction n with
  | zero =>
    intro i
    simp [readyLoop]
  | succ n ih =>
    intro i
    unfold readyLoop
    cases hp : polls i with
    | none =>
      rw [ih (i + 1)]
      constructor
      · rintro ⟨j, hj, hb⟩
        refine ⟨j + 1, by omega, ?_⟩
        have harith : i + (j + 1) = i + 1 + j := by omega
        rw [harith]
        exact hb
      · rintro ⟨j, hj, hb⟩
        cases j with
        | zero =>
          rw [Nat.add_zero] at hb
          rw [hp] at hb
          simp [bannerIn] at hb
        | succ j =>
          refine ⟨j, by omega, ?_⟩
          have harith : i + 1 + j = i + (j + 1) := by omega
          rw [harith]
          exact hb
    | some line =>
      by_cases hflag : containsSeq bannerMarker.data line.data = true
      · simp only [hflag, if_true]
        constructor
        · intro _
          exact ⟨0, by omega, by rw [Nat.add_zero, hp]; simpa [bannerIn] using hflag⟩
        · intro _
          trivial
      · simp only [Bool.not_eq_true] at hflag
        simp only [hflag, Bool.false_eq_true, if_false]
        rw [ih (i + 1)]
        constructor
        · rintro ⟨j, hj, hb⟩
          refine ⟨j + 1, by omega, ?_⟩
          have harith : i + (j + 1) = i + 1 + j := by omega
          rw [harith]
          exact hb
        · rintro ⟨j, hj, hb⟩
          cases j with
          | zero =>
            rw [Nat.add_zero] at hb
            rw [hp] at hb
            simp [bannerIn, hflag] at hb
          | succ j =>
            refine ⟨j, by omega, ?_⟩
            have harith : i + 1 + j = i + (j + 1) := by omega
            rw [harith]
            exact hb

theorem val_connect_fst (polls : Nat → Option String) (p : String)
    (v : ValState) :
    (val_connect polls true (some p) none v).1 = readyLoop polls 10 0 := by
  unfold val_connect
  cases readyLoop polls 10 0 <;> rfl

/-- C8: handshake strictness is asymmetric.  With the port resolved and the
serial open succeeding, the basic simulator's connect reports success
whatever the polled lines are (in particular when no banner is ever read),
while the validation harness's connect succeeds iff some line containing the
exact ready-banner marker is read within its 10 bounded poll attempts, and
otherwise logs a failed Connection result and returns unsuccessfully. -/
theorem c8_handshake_asymmetry (polls : Nat → Option String) (p : String)
    (s : SimState) (v : ValState) :
    (sim_connect polls true (some p) none s).1 = true ∧
    ((val_connect polls true (some p) none v).1 = true ↔
      ∃ j, j < 10 ∧ bannerIn (polls j) = true) ∧
    ((List.range 10).all (fun j => !bannerIn (polls j)) = true →
      (val_connect polls true (some p) none v).1 = false ∧
      (val_connect polls true (some p) none v).2.results.getLast?
        = some ("Connection", false)) := by
  refine ⟨rfl, ?_, ?_⟩
  · rw [val_connect_fst]
    rw [readyLoop_iff polls 10 0]
    constructor
    · rintro ⟨j, hj, hb⟩
      exact ⟨j, hj, by simpa using hb⟩
    · rintro ⟨j, hj, hb⟩
      exact ⟨j, hj, by simpa using hb⟩
  · intro hall
    have hnone : readyLoop polls 10 0 = false := by
      rw [List.all_eq_true] at hall
      cases hr : readyLoop polls 10 0
      · rfl
      · obtain ⟨j, hj, hb⟩ := (readyLoop_iff polls 10 0).mp hr
        have := hall j (List.mem_range.mpr hj)
        simp only [Bool.not_eq_true'] at this
        rw [Nat.zero_add] at hb
        rw [this] at hb
        cases hb
    constructor
    · rw [val_connect_fst, hnone]
    · unfold val_connect
      simp only [hnone, Bool.false_eq_true, if_false, if_true]
      simp [log_result]

theorem c8_handshake_asymmetry_witness :
    ((List.range 10).all
      (fun j => !bannerIn ((fun _ : Nat => (none : Option String)) j)) = true) ∧
    ((val_connect (fun _ => none) true (some "COM3") none initVal).1 = false ∧
     (val_connect (fun _ => none) true (some "COM3") none initVal).2.results.getLast?
       = some ("Connection", false)) :=
  ⟨by decide,
   (c8_handshake_asymmetry (fun _ => none) "COM3" initSim initVal).2.2 (by decide)⟩

/-- C6 as stated is false: with a transport failing exactly the eighth write
attempt, the six malformed writes are accepted, the valid event send
succeeds, the trailing release send fails (8 attempts but only 7 lines ever
reach the wire) — and the stage nevertheless passes, because the release
result is ignored. -/
theorem c6_counterexample :
    (test_error_handling (fun n => n == 7) readyVal).1 = true ∧
    (test_error_handling (fun n => n == 7) readyVal).2.attempted.length = 8 ∧
    (test_error_handling (fun n => n == 7) readyVal).2.writes.length = 7 := by
  decide

set_option maxHeartbeats 2000000 in
/-- C6 amended: on a connected transport, the ErrorHandling stage passes iff
the six deliberately malformed raw writes (attempts 0–5) are all accepted
without raising AND the subsequent valid event send (attempt 6) succeeds;
the trailing release send is attempted but its result does not affect the
verdict. -/
theorem c6_amended (fail : Nat → Bool) :
    (test_error_handling fail readyVal).1
      = (!fail 0 && !fail 1 && !fail 2 && !fail 3 && !fail 4 && !fail 5
          && !fail 6) := by
  cases h0 : fail 0 <;> cases h1 : fail 1 <;> cases h2 : fail 2 <;>
    cases h3 : fail 3 <;> cases h4 : fail 4 <;> cases h5 : fail 5 <;>
    cases h6 : fail 6 <;>
    simp [test_error_handling, invalid_commands, rawWrite, send_command,
      log_result, readyVal, h0, h1, h2, h3, h4, h5, h6]

theorem log_filter (v : ValState) (name : String) (b : Bool) :
    ((log_result v name b).results).filter isStage
      = v.results.filter isStage ++ List.filter isStage [(name, b)] := by
  simp [log_result, List.filter_append]

theorem send_command_filter (fail : Nat → Bool) (v : ValState)
    (actuator_id : Int) (p : ℚ) (fc : Bool) :
    ((send_command fail v actuator_id p fc).2.results).filter isStage
      = v.results.filter isStage := by
  have hcs : isStage ("Command Send", false) = false := by decide
  unfold send_command
  split_ifs <;> simp [log_result, List.filter_append, hcs]

theorem countSends_filter (fail : Nat → Bool) (cmds : List (Int × ℚ × Bool))
    (v : ValState) :
    ((countSends fail v cmds).2.results).filter isStage
      = v.results.filter isStage := by
  suffices h : ∀ (cmds : List (Int × ℚ × Bool)) (acc : Nat × ValState),
      ((cmds.foldl (fun p e =>
          let r := send_command fail p.2 e.1 e.2.1 e.2.2
          (p.1 + (if r.1 then 1 else 0), r.2)) acc).2.results).filter isStage
        = acc.2.results.filter isStage by
    exact h cmds (0, v)
  intro cmds
  induction cmds with
  | nil => intro acc; rfl
  | cons e rest ih =>
    intro acc
    simp only [List.foldl_cons]
    rw [ih]
    exact send_command_filter fail acc.2 e.1 e.2.1 e.2.2

theorem motorPair_filter (fail : Nat → Bool) (v : ValState) (motor_id : Int) :
    ((motorPair fail v motor_id).2.results).filter isStage
      = v.results.filter isStage := by
  unfold motorPair
  cases h : (send_command fail v motor_id 0.7 true).1
  · simp only [h, Bool.false_eq_true, if_false]
    exact send_command_filter fail v motor_id 0.7 true
  · simp only [h, if_true]
    rw [send_command_filter]
    exact send_command_filter fail v motor_id 0.7 true

theorem motorFold_filter (fail : Nat → Bool) :
    ∀ (ms : List Nat) (acc : Nat × ValState),
      ((ms.foldl (fun p m =>
          let q := motorPair fail p.2 ((m : Nat) : Int)
          (p.1 + (if q.1 then 1 else 0), q.2)) acc).2.results).filter isStage
        = acc.2.results.filter isStage := by
  intro ms
  induction ms with
  | nil => intro acc; rfl
  | cons m rest ih =>
    intro acc
    simp only [List.foldl_cons]
    rw [ih]
    exact motorPair_filter fail acc.2 ((m : Nat) : Int)

theorem sendSeq_filter (fail : Nat → Bool) :
    ∀ (sq : List (Int × ℚ × Bool)) (v : ValState),
      ((sendSeq fail v sq).2.results).filter isStage
        = v.results.filter isStage := by
  intro sq
  induction sq with
  | nil => intro v; rfl
  | cons e rest ih =>
    intro v
    unfold sendSeq
    cases h : (send_command fail v e.1 e.2.1 e.2.2).1
    · simp only [h, Bool.false_eq_true, if_false]
      exact send_command_filter fail v e.1 e.2.1 e.2.2
    · simp only [h, if_true]
      rw [ih]
      exact send_command_filter fail v e.1 e.2.1 e.2.2

theorem seqFold_filter (fail : Nat → Bool) :
    ∀ (sqs : List (List (Int × ℚ × Bool))) (acc : Nat × ValState),
      ((sqs.foldl (fun p sq =>
          let q := sendSeq fail p.2 sq
          (p.1 + (if q.1 then 1 else 0), q.2)) acc).2.results).filter isStage
        = acc.2.results.filter isStage := by
  intro sqs
  induction sqs with
  | nil => intro acc; rfl
  | cons sq rest ih =>
    intro acc
    simp only [List.foldl_cons]
    rw [ih]
    exact sendSeq_filter fail sq acc.2

theorem rawWrite_results (fail : Nat → Bool) (v : ValState) (line : String) :
    (rawWrite fail v line).2.results = v.results := by
  unfold rawWrite
  split_ifs <;> rfl

theorem rawFold_results (fail : Nat → Bool) :
    ∀ (cmds : List String) (acc : Nat × ValState),
      ((cmds.foldl (fun p cmd =>
          let w := rawWrite fail p.2 cmd
          (p.1 + (if w.1 then 1 else 0), w.2)) acc).2.results)
        = acc.2.results := by
  intro cmds
  induction cmds with
  | nil => intro acc; rfl
  | cons cmd rest ih =>
    intro acc
    simp only [List.foldl_cons]
    rw [ih]
    exact rawWrite_results fail acc.2 cmd

theorem filter_stage_single (name : String) (b : Bool)
    (h : stageNames.contains name = true) :
    List.filter isStage [(name, b)] = [(name, b)] := by
  have hm : isStage (name, b) = true := h
  simp [List.filter_cons, hm]

theorem basic_filter (fail : Nat → Bool) (v : ValState) :
    ((test_basic_communication fail v).2.results).filter isStage
      = v.results.filter isStage
        ++ [("Basic Communication", (test_basic_communication fail v).1)] := by
  unfold test_basic_communication
  dsimp only
  rw [log_filter, countSends_filter, filter_stage_single _ _ (by decide)]

theorem motor_filter (fail : Nat → Bool) (v : ValState) :
    ((test_motor_response fail v).2.results).filter isStage
      = v.results.filter isStage
        ++ [("Motor Response", (test_motor_response fail v).1)] := by
  unfold test_motor_response
  dsimp only
  rw [log_filter, motorFold_filter, filter_stage_single _ _ (by decide)]

theorem first_contact_filter (fail : Nat → Bool) (v : ValState) :
    ((test_first_contact_detection fail v).2.results).filter isStage
      = v.results.filter isStage
        ++ [("First Contact Detection",
             (test_first_contact_detection fail v).1)] := by
  unfold test_first_contact_detection
  dsimp only
  rw [log_filter, seqFold_filter, filter_stage_single _ _ (by decide)]

theorem intensity_filter (fail : Nat → Bool) (v : ValState) :
    ((test_intensity_scaling fail v).2.results).filter isStage
      = v.results.filter isStage
        ++ [("Intensity Scaling", (test_intensity_scaling fail v).1)] := by
  unfold test_intensity_scaling
  cases h : (send_command fail v 1 0.1 true).1
  · simp only [h, Bool.false_eq_true, if_false]
    rw [log_filter, send_command_filter, filter_stage_single _ _ (by decide)]
  · simp only [h, if_true]
    rw [log_filter, send_command_filter, countSends_filter,
      send_command_filter, filter_stage_single _ _ (by decide)]

theorem timing_filter (fail : Nat → Bool) (now : Nat → ℚ) (v : ValState) :
    ((test_timing_performance fail now v).2.results).filter isStage
      = v.results.filter isStage
        ++ [("Timing Performance", (test_timing_performance fail now v).1)] := by
  unfold test_timing_performance
  dsimp only
  rw [log_filter, countSends_filter, filter_stage_single _ _ (by decide)]

theorem error_filter (fail : Nat → Bool) (v : ValState) :
    ((test_error_handling fail v).2.results).filter isStage
      = v.results.filter isStage
        ++ [("Error Handling", (test_error_handling fail v).1)] := by
  unfold test_error_handling
  cases h : (send_command fail
      ((invalid_commands.foldl (fun p cmd =>
        let w := rawWrite fail p.2 cmd
        (p.1 + (if w.1 then 1 else 0), w.2)) (0, v)).2) 0 0.5 true).1
  · simp only [h, Bool.false_eq_true, if_false]
    rw [log_filter, send_command_filter]
    rw [show ((invalid_commands.foldl (fun p cmd =>
        let w := rawWrite fail p.2 cmd
        (p.1 + (if w.1 then 1 else 0), w.2)) (0, v)).2.results).filter isStage
      = v.results.filter isStage from by rw [rawFold_results]]
    rw [filter_stage_single _ _ (by decide)]
  · simp only [h, if_true]
    rw [log_filter, send_command_filter, send_command_filter]
    rw [show ((invalid_commands.foldl (fun p cmd =>
        let w := rawWrite fail p.2 cmd
        (p.1 + (if w.1 then 1 else 0), w.2)) (0, v)).2.results).filter isStage
      = v.results.filter isStage from by rw [rawFold_results]]
    rw [filter_stage_single _ _ (by decide)]

theorem runStages_spec (fail : Nat → Bool) (now : Nat → ℚ) (v : ValState) :
    ∃ b1 b2 b3 b4 b5 b6 : Bool,
      ((runStages fail now v).2.results).filter isStage
        = v.results.filter isStage
          ++ [("Basic Communication", b1), ("Motor Response", b2),
              ("First Contact Detection", b3), ("Intensity Scaling", b4),
              ("Timing Performance", b5), ("Error Handling", b6)] ∧
      (((runStages fail now v).1 == 6)
        = (b1 && b2 && b3 && b4 && b5 && b6)) := by
  unfold runStages
  dsimp only
  refine ⟨(test_basic_communication fail v).1,
    (test_motor_response fail (test_basic_communication fail v).2).1,
    (test_first_contact_detection fail
      (test_motor_response fail (test_basic_communication fail v).2).2).1,
    (test_intensity_scaling fail
      (test_first_contact_detection fail
        (test_motor_response fail (test_basic_communication fail v).2).2).2).1,
    (test_timing_performance fail now
      (test_intensity_scaling fail
        (test_first_contact_detection fail
          (test_motor_response fail
            (test_basic_communication fail v).2).2).2).2).1,
    (test_error_handling fail
      (test_timing_performance fail now
        (test_intensity_scaling fail
          (test_first_contact_detection fail
            (test_motor_response fail
              (test_basic_communication fail v).2).2).2).2).2).1, ?_, ?_⟩
  · rw [error_filter, timing_filter, intensity_filter, first_contact_filter,
      motor_filter, basic_filter]
    simp [List.append_assoc]
  · cases (test_basic_communication fail v).1 <;>
      cases (test_motor_response fail (test_basic_communication fail v).2).1 <;>
      cases (test_first_contact_detection fail
        (test_motor_response fail (test_basic_communication fail v).2).2).1 <;>
      cases (test_intensity_scaling fail
        (test_first_contact_detection fail
          (test_motor_response fail
            (test_basic_communication fail v).2).2).2).1 <;>
      cases (test_timing_performance fail now
        (test_intensity_scaling fail
          (test_first_contact_detection fail
            (test_motor_response fail
              (test_basic_communication fail v).2).2).2).2).1 <;>
      cases (test_error_handling fail
        (test_timing_performance fail now
          (test_intensity_scaling fail
            (test_first_contact_detection fail
              (test_motor_response fail
                (test_basic_communication fail v).2).2).2).2).2).1 <;>
      rfl

theorem val_connect_results (polls : Nat → Option String) (openOk : Bool)
    (port found : Option String) (v : ValState) :
    ∃ b : Bool, (val_connect polls openOk port found v).2.results
      = v.results ++ [("Connection", b)] := by
  unfold val_connect
  cases port with
  | none =>
    cases found with
    | none => exact ⟨false, rfl⟩
    | some p =>
      cases openOk
      · exact ⟨false, rfl⟩
      · cases h : readyLoop polls 10 0
        · exact ⟨false, by simp [h, log_result]⟩
        · exact ⟨true, by simp [h, log_result]⟩
  | some p =>
    cases openOk
    · exact ⟨false, rfl⟩
    · cases h : readyLoop polls 10 0
      · exact ⟨false, by simp [h, log_result]⟩
      · exact ⟨true, by simp [h, log_result]⟩

/-- C7: in a validation run started fresh, if the Connect stage fails then
the run returns failure and no stage result is ever logged (no stage
executes); if Connect succeeds, all six stages execute — the result log
contains exactly one entry per stage, in the fixed order, regardless of any
stage failures — and the overall run passes iff every stage passed. -/
theorem c7_validation_run (fail : Nat → Bool) (now : Nat → ℚ)
    (polls : Nat → Option String) (openOk : Bool)
    (port found : Option String) :
    ((val_connect polls openOk port found initVal).1 = false →
      (run_full_validation fail now polls openOk port found initVal).1 = false ∧
      ((run_full_validation fail now polls openOk port found
          initVal).2.results).filter isStage = []) ∧
    ((val_connect polls openOk port found initVal).1 = true →
      ((((run_full_validation fail now polls openOk port found
          initVal).2.results).filter isStage).map Prod.fst = stageNames ∧
      ((run_full_validation fail now polls openOk port found initVal).1 = true ↔
        (((run_full_validation fail now polls openOk port found
            initVal).2.results).filter isStage).all Prod.snd = true))) := by
  obtain ⟨bc, hbc⟩ := val_connect_results polls openOk port found initVal
  have hcstage : isStage ("Connection", bc) = false := rfl
  have hcfil : ((val_connect polls openOk port found
      initVal).2.results).filter isStage = [] := by
    rw [hbc]
    simp [initVal, List.filter_cons, hcstage]
  constructor
  · intro hcf
    unfold run_full_validation
    dsimp only
    simp only [hcf, Bool.false_eq_true, if_false]
    exact ⟨by trivial, hcfil⟩
  · intro hct
    unfold run_full_validation
    dsimp only
    simp only [hct, if_true]
    obtain ⟨b1, b2, b3, b4, b5, b6, hfil, hcnt⟩ :=
      runStages_spec fail now (val_connect polls openOk port found initVal).2
    rw [hfil, hcfil]
    constructor
    · rfl
    · rw [hcnt]
      simp [List.all_cons, Bool.and_assoc]

theorem c7_validation_run_witness :
    (val_connect (fun _ => some "Tact Haptic Controller Ready") true
      (some "COM3") none initVal).1 = true ∧
    ((((run_full_validation (fun _ => false) (fun n => (n : ℚ))
        (fun _ => some "Tact Haptic Controller Ready") true (some "COM3")
        none initVal).2.results).filter isStage).map Prod.fst = stageNames ∧
    ((run_full_validation (fun _ => false) (fun n => (n : ℚ))
        (fun _ => some "Tact Haptic Controller Ready") true (some "COM3")
        none initVal).1 = true ↔
      (((run_full_validation (fun _ => false) (fun n => (n : ℚ))
          (fun _ => some "Tact Haptic Controller Ready") true (some "COM3")
          none initVal).2.results).filter isStage).all Prod.snd = true)) :=
  ⟨by decide,
   (c7_validation_run (fun _ => false) (fun n => (n : ℚ))
     (fun _ => some "Tact Haptic Controller Ready") true (some "COM3")
     none).2 (by decide)⟩
